import Mathlib

/-!
Verification development for the search-engine CRUD facade in
`src/api/service/elk.py`.

The module is a stateless layer over an external search-engine client.
We embed it shallowly: Python strings become `List Char`, the engine
client becomes a record of response functions (an oracle), exceptions
become an explicit `ExcKind` channel, and every operation returns both
its Python-level outcome and the ordered trace of engine calls it
issued.  The constant modules `api.utils.const` and `api.utils.status`
are not part of the repository snapshot, so the configuration constants
are parameters (a `Config` record) and the HTTP status names are
modelled from the spec's fixed enumeration.
-/

namespace Elk

/-- A Python string, embedded as its character list. -/
abbrev PyStr := List Char

/-- A document body: a Python dict from field name to value. -/
abbrev Doc := List (PyStr × PyStr)

/-- Modelled from the spec: `api.utils.status` (module `sc`) is not under
`src/`; the spec fixes the status enumeration (success, bad-request,
not-found, method-not-allowed, not-acceptable, request-timeout,
already-reported) and the conventional numeric value is part of each
constant's name. -/
def HTTP_200_OK : Nat := 200

/-- Modelled from the spec: see `HTTP_200_OK`. -/
def HTTP_208_ALREADY_REPORTED : Nat := 208

/-- Modelled from the spec: see `HTTP_200_OK`. -/
def HTTP_400_BAD_REQUEST : Nat := 400

/-- Modelled from the spec: see `HTTP_200_OK`. -/
def HTTP_404_NOT_FOUND : Nat := 404

/-- Modelled from the spec: see `HTTP_200_OK`. -/
def HTTP_405_METHOD_NOT_ALLOWED : Nat := 405

/-- Modelled from the spec: see `HTTP_200_OK`. -/
def HTTP_406_NOT_ACCEPTABLE : Nat := 406

/-- Modelled from the spec: see `HTTP_200_OK`. -/
def HTTP_408_REQUEST_TIMEOUT : Nat := 408

/-- Modelled from the spec: the constants of `api.utils.const` are not under
`src/`; the spec only calls them a fixed page size, a fixed
disallowed-character set, a fixed request timeout, a fixed index-name
prefix and a configured maximum index count, so they are parameters of
the embedding.  `idxNamePfx` stands for the source's INDEX_NAME_PREFIX. -/
structure Config where
  RECORDS : Nat
  SPECIAL_CHARS : List Char
  REQUEST_TIMEOUT : Nat
  idxNamePfx : PyStr
  MAX_IDX_LIM : Nat

/-- The kind of exception an engine call raises: the specifically caught
`elastic_transport.ConnectionTimeout`, or any other exception. -/
inductive ExcKind where
  | connTimeout
  | other
deriving DecidableEq, Repr

/-- Result of one engine (or filesystem) call: a value, or a raised
exception of the given kind. -/
inductive EngineReply (α : Type) where
  | ok (a : α)
  | exc (k : ExcKind)
deriving DecidableEq, Repr

/-- The query bodies `elk.py` builds for `_es.search`. -/
inductive Query where
  | matchKV (key val : PyStr)
  | range (dateField gte lte : PyStr)
  | queryString (q : PyStr)
deriving DecidableEq, Repr

/-- One `_es.search` call as the source issues it: target index, query,
the `size` argument when passed, the `request_timeout` argument, and
whether the query was passed inside a `body` dict (only the search by id
does that) instead of the `query` keyword. -/
structure SearchRequest where
  index : PyStr
  q : Query
  size : Option Nat
  requestTimeout : Nat
  viaBody : Bool
deriving DecidableEq, Repr

/-- The engine client (plus the filesystem open used by the bulk load),
as a deterministic oracle: each field gives the reply to one kind of
call.  A search reply `.ok hits` carries the `_source` body of each hit
of `res["hits"]["hits"]`, in order. -/
structure Engine where
  catIndices : PyStr → EngineReply (List PyStr)
  existsIdx : PyStr → Bool
  createIdx : PyStr → EngineReply Unit
  deleteIdx : PyStr → EngineReply Unit
  indexDoc : PyStr → PyStr → Doc → EngineReply Unit
  fileOpen : PyStr → EngineReply Unit
  bulkLoad : PyStr → PyStr → EngineReply Unit
  search : SearchRequest → EngineReply (List Doc)

/-- One entry of an operation's engine-call trace. -/
inductive EngineCall where
  | catIndices (pattern : PyStr)
  | existsCheck (index : PyStr)
  | createIndex (index : PyStr)
  | deleteIndex (index : PyStr)
  | indexDoc (index docId : PyStr)
  | openFile (filename : PyStr)
  | bulkLoad (index filename : PyStr)
  | search (req : SearchRequest)
deriving DecidableEq, Repr

/-- The `{message, status}` response envelope. -/
structure Envelope where
  message : String
  status : Nat
deriving DecidableEq, Repr

/-- What a call of one of the Python functions produces: a returned
envelope, returned data (one document body, a list of bodies, or a list
of projected field values), or an uncaught exception propagating out. -/
inductive PyOutcome where
  | env (e : Envelope)
  | doc (d : Doc)
  | docs (l : List Doc)
  | projected (l : List (Option PyStr))
  | raised (k : ExcKind)
deriving DecidableEq, Repr

/-- Renders an embedded Python string inside an envelope message. -/
def strOf (s : PyStr) : String := String.mk s

/-- The validation loop shared by every operation:
`allowed = True; for char in SPECIAL_CHARS: if char in _index: allowed = False`. -/
def nameAllowed (specials : List Char) (idx : PyStr) : Bool :=
  specials.foldl (fun allowed c => if idx.contains c then false else allowed) true

/-- The shared normalization step: prepend INDEX_NAME_PREFIX when the name
does not already start with it. -/
def normalizeIdx (pfx idx : PyStr) : PyStr :=
  if pfx.isPrefixOf idx then idx else pfx ++ idx

/-! ### Envelope message texts, reproduced from the source's f-strings -/

/-- Create, condition-1 message (capacity reached). -/
def maxLimitMsg (m : Nat) : String :=
  "Maximum limit(=" ++ toString m ++ ") of indices has already been reached," ++
    " not allowed to create anymore indices unless you delete some"

/-- Create, condition-2 message (invalid name). -/
def invalidNameCreateMsg (idx : PyStr) : String :=
  "IndexName must not contain any special chars other than" ++
    " '_' or '-', index '" ++ strOf idx ++ "' couldn't be created"

/-- Create, success message. -/
def createdMsg (idx : PyStr) : String :=
  "Successfully created index: " ++ strOf idx

/-- Create, broad-except message. -/
def createFailMsg (idx : PyStr) : String :=
  "Failed to create index: " ++ strOf idx

/-- Create, already-exists message. -/
def alreadyExistsMsg (idx : PyStr) : String :=
  "Not created, index '" ++ strOf idx ++ "' already exists"

/-- Delete, invalid-name message. -/
def invalidNameDeleteMsg (idx : PyStr) : String :=
  "IndexName must not contain any special chars other than" ++
    " '_' or '-', index '" ++ strOf idx ++ "' couldn't be deleted"

/-- Delete, success message. -/
def deletedMsg (idx : PyStr) : String :=
  "Successfully deleted index: " ++ strOf idx

/-- Delete, broad-except message. -/
def deleteFailMsg (idx : PyStr) : String :=
  "Failed to delete index: " ++ strOf idx

/-- Delete, index-missing message. -/
def deleteMissingMsg (idx : PyStr) : String :=
  "Index '" ++ strOf idx ++ "' does not exist, nothing to delete"

/-- Single and bulk insert, invalid-name message. -/
def invalidNameInsertMsg (idx : PyStr) : String :=
  "IndexName must not contain any special chars other than" ++
    " '_' or '-', index '" ++ strOf idx ++ "' couldn't index any record"

/-- Single insert, success message. -/
def insertOkMsg (idx : PyStr) : String :=
  "Record successfully loaded into index '" ++ strOf idx ++ "'"

/-- Single insert, broad-except message. -/
def insertFailMsg (idx : PyStr) : String :=
  "Failed to load record into index '" ++ strOf idx ++ "'"

/-- Single insert, index-missing message (quoting as in the source). -/
def insertMissingMsg (idx : PyStr) : String :=
  "'" ++ strOf idx ++ " doesn't exist, create this index to insert records'"

/-- Bulk insert, success message. -/
def bulkOkMsg (idx : PyStr) : String :=
  "Records successfully loaded into index '" ++ strOf idx ++ "'"

/-- Bulk insert, broad-except message. -/
def bulkFailMsg (idx : PyStr) : String :=
  "Failed to load records into index '" ++ strOf idx ++ "'"

/-- Searches, invalid-name message. -/
def invalidNameSearchMsg (idx : PyStr) : String :=
  "IndexName must not contain any special chars other than" ++
    " '_' or '-', couldn't find any record from index '" ++ strOf idx ++ "'"

/-- Searches, ConnectionTimeout message. -/
def timedOutMsg : String := "Request timed out"

/-- Search by id, empty-hits message. -/
def noRecordIdMsg (docId idx : PyStr) : String :=
  "No record with id=" ++ strOf docId ++ " exists in index '" ++ strOf idx ++ "'"

/-- Key/value searches, empty-hits message. -/
def noRecordKVMsg (key val idx : PyStr) : String :=
  "No record with key='" ++ strOf key ++ "' and value='" ++ strOf val ++
    "' exists in index '" ++ strOf idx ++ "'"

/-- Time-range searches (and, by copy-paste, the keyword and text
searches), empty-hits message. -/
def noRecordRangeMsg (idx : PyStr) : String :=
  "No record in given time-range exists in index '" ++ strOf idx ++ "'"

/-- Searches, index-missing message. -/
def missingIdxMsg (idx : PyStr) : String :=
  "Index '" ++ strOf idx ++ "' doesn't exist"

/-! ### The operations of `elk.py` -/

/-- `no_of_tdp_idx`: count of indices matching INDEX_NAME_PREFIX + '*',
via `cat.indices` (whose reported name list we take directly); an
exception from the engine propagates. -/
def no_of_tdp_idx (cfg : Config) (es : Engine) :
    EngineReply Nat × List EngineCall :=
  match es.catIndices (cfg.idxNamePfx ++ ['*']) with
  | .ok idxList => (.ok idxList.length, [.catIndices (cfg.idxNamePfx ++ ['*'])])
  | .exc k => (.exc k, [.catIndices (cfg.idxNamePfx ++ ['*'])])

/-- `create_a_single_index`: capacity check, name validation,
normalization, existence check, then the create call whose exceptions
are caught broadly. -/
def create_a_single_index (cfg : Config) (es : Engine) (idx : PyStr) :
    PyOutcome × List EngineCall :=
  match no_of_tdp_idx cfg es with
  | (.exc k, tr) => (.raised k, tr)
  | (.ok n, tr) =>
    if n ≥ cfg.MAX_IDX_LIM then
      (.env ⟨maxLimitMsg cfg.MAX_IDX_LIM, HTTP_406_NOT_ACCEPTABLE⟩, tr)
    else if !(nameAllowed cfg.SPECIAL_CHARS idx) then
      (.env ⟨invalidNameCreateMsg idx, HTTP_405_METHOD_NOT_ALLOWED⟩, tr)
    else
      let nidx := normalizeIdx cfg.idxNamePfx idx
      if !(es.existsIdx nidx) then
        match es.createIdx nidx with
        | .ok _ =>
          (.env ⟨createdMsg nidx, HTTP_200_OK⟩,
            tr ++ [.existsCheck nidx, .createIndex nidx])
        | .exc _ =>
          (.env ⟨createFailMsg nidx, HTTP_404_NOT_FOUND⟩,
            tr ++ [.existsCheck nidx, .createIndex nidx])
      else
        (.env ⟨alreadyExistsMsg nidx, HTTP_208_ALREADY_REPORTED⟩,
          tr ++ [.existsCheck nidx])

/-- `delete_a_single_index`: name validation, normalization, existence
check, then the delete call whose exceptions are caught broadly. -/
def delete_a_single_index (cfg : Config) (es : Engine) (idx : PyStr) :
    PyOutcome × List EngineCall :=
  if !(nameAllowed cfg.SPECIAL_CHARS idx) then
    (.env ⟨invalidNameDeleteMsg idx, 405⟩, [])
  else
    let nidx := normalizeIdx cfg.idxNamePfx idx
    if es.existsIdx nidx then
      match es.deleteIdx nidx with
      | .ok _ => (.env ⟨deletedMsg nidx, 200⟩,
          [.existsCheck nidx, .deleteIndex nidx])
      | .exc _ => (.env ⟨deleteFailMsg nidx, 404⟩,
          [.existsCheck nidx, .deleteIndex nidx])
    else
      (.env ⟨deleteMissingMsg nidx, HTTP_400_BAD_REQUEST⟩, [.existsCheck nidx])

/-- `insert_a_single_doc`: name validation, normalization, existence
check, then the index call whose exceptions are caught broadly. -/
def insert_a_single_doc (cfg : Config) (es : Engine) (idx docId : PyStr)
    (doc : Doc) : PyOutcome × List EngineCall :=
  if !(nameAllowed cfg.SPECIAL_CHARS idx) then
    (.env ⟨invalidNameInsertMsg idx, 405⟩, [])
  else
    let nidx := normalizeIdx cfg.idxNamePfx idx
    if es.existsIdx nidx then
      match es.indexDoc nidx docId doc with
      | .ok _ => (.env ⟨insertOkMsg nidx, 200⟩,
          [.existsCheck nidx, .indexDoc nidx docId])
      | .exc _ => (.env ⟨insertFailMsg nidx, 404⟩,
          [.existsCheck nidx, .indexDoc nidx docId])
    else
      (.env ⟨insertMissingMsg nidx, HTTP_400_BAD_REQUEST⟩, [.existsCheck nidx])

/-- `insert_multiple_docs_from_csv`: name validation, normalization; when
the index is missing, a `create_a_single_index` call whose returned
envelope is discarded (only a propagating exception from it aborts);
then the file open (outside the try, so its exception propagates) and
the bulk call whose exceptions are caught broadly. -/
def insert_multiple_docs_from_csv (cfg : Config) (es : Engine)
    (idx filename : PyStr) : PyOutcome × List EngineCall :=
  if !(nameAllowed cfg.SPECIAL_CHARS idx) then
    (.env ⟨invalidNameInsertMsg idx, 405⟩, [])
  else
    let nidx := normalizeIdx cfg.idxNamePfx idx
    let pre : Option ExcKind × List EngineCall :=
      if !(es.existsIdx nidx) then
        match create_a_single_index cfg es nidx with
        | (.raised k, ctr) => (some k, .existsCheck nidx :: ctr)
        | (_, ctr) => (none, .existsCheck nidx :: ctr)
      else (none, [.existsCheck nidx])
    match pre with
    | (some k, tr) => (.raised k, tr)
    | (none, tr) =>
      match es.fileOpen filename with
      | .exc k => (.raised k, tr ++ [.openFile filename])
      | .ok _ =>
        match es.bulkLoad nidx filename with
        | .ok _ => (.env ⟨bulkOkMsg nidx, 200⟩,
            tr ++ [.openFile filename, .bulkLoad nidx filename])
        | .exc _ => (.env ⟨bulkFailMsg nidx, 404⟩,
            tr ++ [.openFile filename, .bulkLoad nidx filename])

/-- The key string "_id" of the match query used by the search by id. -/
def idKey : PyStr := ['_', 'i', 'd']

/-- `search_record_from_index_by_given_id`: match query on `_id` passed
inside `body`, with `request_timeout` but no `size`; only
ConnectionTimeout is caught; empty hits give 404; otherwise the first
hit's `_source` is returned. -/
def search_record_from_index_by_given_id (cfg : Config) (es : Engine)
    (idx docId : PyStr) : PyOutcome × List EngineCall :=
  if !(nameAllowed cfg.SPECIAL_CHARS idx) then
    (.env ⟨invalidNameSearchMsg idx, HTTP_405_METHOD_NOT_ALLOWED⟩, [])
  else
    let nidx := normalizeIdx cfg.idxNamePfx idx
    if es.existsIdx nidx then
      let req : SearchRequest :=
        { index := nidx, q := .matchKV idKey docId, size := none,
          requestTimeout := cfg.REQUEST_TIMEOUT, viaBody := true }
      match es.search req with
      | .exc .connTimeout =>
        (.env ⟨timedOutMsg, HTTP_408_REQUEST_TIMEOUT⟩,
          [.existsCheck nidx, .search req])
      | .exc .other => (.raised .other, [.existsCheck nidx, .search req])
      | .ok [] =>
        (.env ⟨noRecordIdMsg docId nidx, HTTP_404_NOT_FOUND⟩,
          [.existsCheck nidx, .search req])
      | .ok (h :: _) => (.doc h, [.existsCheck nidx, .search req])
    else
      (.env ⟨missingIdxMsg nidx, HTTP_404_NOT_FOUND⟩, [.existsCheck nidx])

/-- `search_records_from_index_by_given_key_and_value`: match query on
the given key, with `size=RECORDS` and `request_timeout`; only
ConnectionTimeout is caught; empty hits give 404; otherwise the list of
hit `_source` bodies is returned. -/
def search_records_from_index_by_given_key_and_value (cfg : Config)
    (es : Engine) (idx key val : PyStr) : PyOutcome × List EngineCall :=
  if !(nameAllowed cfg.SPECIAL_CHARS idx) then
    (.env ⟨invalidNameSearchMsg idx, HTTP_405_METHOD_NOT_ALLOWED⟩, [])
  else
    let nidx := normalizeIdx cfg.idxNamePfx idx
    if es.existsIdx nidx then
      let req : SearchRequest :=
        { index := nidx, q := .matchKV key val, size := some cfg.RECORDS,
          requestTimeout := cfg.REQUEST_TIMEOUT, viaBody := false }
      match es.search req with
      | .exc .connTimeout =>
        (.env ⟨timedOutMsg, HTTP_408_REQUEST_TIMEOUT⟩,
          [.existsCheck nidx, .search req])
      | .exc .other => (.raised .other, [.existsCheck nidx, .search req])
      | .ok [] =>
        (.env ⟨noRecordKVMsg key val nidx, HTTP_404_NOT_FOUND⟩,
          [.existsCheck nidx, .search req])
      | .ok hits => (.docs hits, [.existsCheck nidx, .search req])
    else
      (.env ⟨missingIdxMsg nidx, HTTP_404_NOT_FOUND⟩, [.existsCheck nidx])

/-- `search_field_from_index_by_given_key_and_value`: same match query;
each hit contributes `_source.get(field)` (an `Option`, `none` when the
field is absent) at its position. -/
def search_field_from_index_by_given_key_and_value (cfg : Config)
    (es : Engine) (idx fld key val : PyStr) : PyOutcome × List EngineCall :=
  if !(nameAllowed cfg.SPECIAL_CHARS idx) then
    (.env ⟨invalidNameSearchMsg idx, HTTP_405_METHOD_NOT_ALLOWED⟩, [])
  else
    let nidx := normalizeIdx cfg.idxNamePfx idx
    if es.existsIdx nidx then
      let req : SearchRequest :=
        { index := nidx, q := .matchKV key val, size := some cfg.RECORDS,
          requestTimeout := cfg.REQUEST_TIMEOUT, viaBody := false }
      match es.search req with
      | .exc .connTimeout =>
        (.env ⟨timedOutMsg, HTTP_408_REQUEST_TIMEOUT⟩,
          [.existsCheck nidx, .search req])
      | .exc .other => (.raised .other, [.existsCheck nidx, .search req])
      | .ok [] =>
        (.env ⟨noRecordKVMsg key val nidx, HTTP_404_NOT_FOUND⟩,
          [.existsCheck nidx, .search req])
      | .ok hits =>
        (.projected (hits.map (fun arr => arr.lookup fld)),
          [.existsCheck nidx, .search req])
    else
      (.env ⟨missingIdxMsg nidx, HTTP_404_NOT_FOUND⟩, [.existsCheck nidx])

/-- `search_records_from_index_by_time_range`: range query (gte start,
lte end) on the given date field, with `size=RECORDS` and
`request_timeout`. -/
def search_records_from_index_by_time_range (cfg : Config) (es : Engine)
    (idx dateField tStart tEnd : PyStr) : PyOutcome × List EngineCall :=
  if !(nameAllowed cfg.SPECIAL_CHARS idx) then
    (.env ⟨invalidNameSearchMsg idx, HTTP_405_METHOD_NOT_ALLOWED⟩, [])
  else
    let nidx := normalizeIdx cfg.idxNamePfx idx
    if es.existsIdx nidx then
      let req : SearchRequest :=
        { index := nidx, q := .range dateField tStart tEnd,
          size := some cfg.RECORDS,
          requestTimeout := cfg.REQUEST_TIMEOUT, viaBody := false }
      match es.search req with
      | .exc .connTimeout =>
        (.env ⟨timedOutMsg, HTTP_408_REQUEST_TIMEOUT⟩,
          [.existsCheck nidx, .search req])
      | .exc .other => (.raised .other, [.existsCheck nidx, .search req])
      | .ok [] =>
        (.env ⟨noRecordRangeMsg nidx, HTTP_404_NOT_FOUND⟩,
          [.existsCheck nidx, .search req])
      | .ok hits => (.docs hits, [.existsCheck nidx, .search req])
    else
      (.env ⟨missingIdxMsg nidx, HTTP_404_NOT_FOUND⟩, [.existsCheck nidx])

/-- `search_field_from_index_by_time_range`: same range query; each hit
contributes `_source.get(field)` at its position. -/
def search_field_from_index_by_time_range (cfg : Config) (es : Engine)
    (idx dateField fld tStart tEnd : PyStr) : PyOutcome × List EngineCall :=
  if !(nameAllowed cfg.SPECIAL_CHARS idx) then
    (.env ⟨invalidNameSearchMsg idx, HTTP_405_METHOD_NOT_ALLOWED⟩, [])
  else
    let nidx := normalizeIdx cfg.idxNamePfx idx
    if es.existsIdx nidx then
      let req : SearchRequest :=
        { index := nidx, q := .range dateField tStart tEnd,
          size := some cfg.RECORDS,
          requestTimeout := cfg.REQUEST_TIMEOUT, viaBody := false }
      match es.search req with
      | .exc .connTimeout =>
        (.env ⟨timedOutMsg, HTTP_408_REQUEST_TIMEOUT⟩,
          [.existsCheck nidx, .search req])
      | .exc .other => (.raised .other, [.existsCheck nidx, .search req])
      | .ok [] =>
        (.env ⟨noRecordRangeMsg nidx, HTTP_404_NOT_FOUND⟩,
          [.existsCheck nidx, .search req])
      | .ok hits =>
        (.projected (hits.map (fun arr => arr.lookup fld)),
          [.existsCheck nidx, .search req])
    else
      (.env ⟨missingIdxMsg nidx, HTTP_404_NOT_FOUND⟩, [.existsCheck nidx])

/-- `search_all_occurances_of_keyword_in_index`: query-string query with
the keyword as given, with `size=RECORDS` and `request_timeout`. -/
def search_all_occurances_of_keyword_in_index (cfg : Config) (es : Engine)
    (idx keyword : PyStr) : PyOutcome × List EngineCall :=
  if !(nameAllowed cfg.SPECIAL_CHARS idx) then
    (.env ⟨invalidNameSearchMsg idx, HTTP_405_METHOD_NOT_ALLOWED⟩, [])
  else
    let nidx := normalizeIdx cfg.idxNamePfx idx
    if es.existsIdx nidx then
      let req : SearchRequest :=
        { index := nidx, q := .queryString keyword, size := some cfg.RECORDS,
          requestTimeout := cfg.REQUEST_TIMEOUT, viaBody := false }
      match es.search req with
      | .exc .connTimeout =>
        (.env ⟨timedOutMsg, HTTP_408_REQUEST_TIMEOUT⟩,
          [.existsCheck nidx, .search req])
      | .exc .other => (.raised .other, [.existsCheck nidx, .search req])
      | .ok [] =>
        (.env ⟨noRecordRangeMsg nidx, HTTP_404_NOT_FOUND⟩,
          [.existsCheck nidx, .search req])
      | .ok hits => (.docs hits, [.existsCheck nidx, .search req])
    else
      (.env ⟨missingIdxMsg nidx, HTTP_404_NOT_FOUND⟩, [.existsCheck nidx])

/-- `search_all_occurances_of_text_in_index`: builds
`_str = '*' + _text + '*'` and otherwise runs the same query-string
search as the keyword variant. -/
def search_all_occurances_of_text_in_index (cfg : Config) (es : Engine)
    (idx text : PyStr) : PyOutcome × List EngineCall :=
  if !(nameAllowed cfg.SPECIAL_CHARS idx) then
    (.env ⟨invalidNameSearchMsg idx, HTTP_405_METHOD_NOT_ALLOWED⟩, [])
  else
    let nidx := normalizeIdx cfg.idxNamePfx idx
    if es.existsIdx nidx then
      let str := ['*'] ++ text ++ ['*']
      let req : SearchRequest :=
        { index := nidx, q := .queryString str, size := some cfg.RECORDS,
          requestTimeout := cfg.REQUEST_TIMEOUT, viaBody := false }
      match es.search req with
      | .exc .connTimeout =>
        (.env ⟨timedOutMsg, HTTP_408_REQUEST_TIMEOUT⟩,
          [.existsCheck nidx, .search req])
      | .exc .other => (.raised .other, [.existsCheck nidx, .search req])
      | .ok [] =>
        (.env ⟨noRecordRangeMsg nidx, HTTP_404_NOT_FOUND⟩,
          [.existsCheck nidx, .search req])
      | .ok hits => (.docs hits, [.existsCheck nidx, .search req])
    else
      (.env ⟨missingIdxMsg nidx, HTTP_404_NOT_FOUND⟩, [.existsCheck nidx])

/-! ### Concrete instances used to exercise the embedding -/

/-- A sample configuration: page size 10, the disallowed characters
containing the ones exercised below, timeout 30, prefix "tdp_",
index limit 50. -/
def cfg1 : Config :=
  { RECORDS := 10, SPECIAL_CHARS := ['*', '?', '/'], REQUEST_TIMEOUT := 30,
    idxNamePfx := ['t', 'd', 'p', '_'], MAX_IDX_LIM := 50 }

/-- `cfg1` with the index limit lowered to 1. -/
def cfgLim1 : Config := { cfg1 with MAX_IDX_LIM := 1 }

/-- `cfg1` with the index limit lowered to 0: every create is refused. -/
def cfgLim0 : Config := { cfg1 with MAX_IDX_LIM := 0 }

/-- An engine with no indices where every call succeeds. -/
def esEmpty : Engine :=
  { catIndices := fun _ => .ok []
    existsIdx := fun _ => false
    createIdx := fun _ => .ok ()
    deleteIdx := fun _ => .ok ()
    indexDoc := fun _ _ _ => .ok ()
    fileOpen := fun _ => .ok ()
    bulkLoad := fun _ _ => .ok ()
    search := fun _ => .ok [] }

/-- An engine reporting one existing prefixed index. -/
def esOne : Engine := { esEmpty with catIndices := fun _ => .ok [['a']] }

/-- An engine where every index exists and every search returns one hit
whose body has the single field "k" = "v". -/
def esHit : Engine :=
  { esEmpty with
    existsIdx := fun _ => true
    search := fun _ => .ok [[(['k'], ['v'])]] }

/-- An engine where every index exists and every search raises
ConnectionTimeout; the write calls raise ConnectionTimeout as well. -/
def esTO : Engine :=
  { esEmpty with
    existsIdx := fun _ => true
    search := fun _ => .exc .connTimeout
    deleteIdx := fun _ => .exc .connTimeout
    indexDoc := fun _ _ _ => .exc .connTimeout
    bulkLoad := fun _ _ => .exc .connTimeout }

/-- An engine with no indices whose create call raises ConnectionTimeout. -/
def esCreateTO : Engine := { esEmpty with createIdx := fun _ => .exc .connTimeout }

/-! ### Helper lemmas about the validation loop -/

/-- The validation fold from any accumulator value. -/
theorem nameAllowed_foldl (specials : List Char) (idx : PyStr) (b : Bool) :
    specials.foldl (fun allowed c => if idx.contains c then false else allowed) b =
      (b && specials.all (fun c => !(idx.contains c))) := by
  induction specials generalizing b with
  | nil => simp
  | cons c cs ih =>
    simp only [List.foldl_cons, List.all_cons]
    rw [ih]
    cases h : idx.contains c <;> simp [h, Bool.and_assoc]

/-- `nameAllowed` accepts exactly the names without any disallowed character. -/
theorem nameAllowed_eq_all (specials : List Char) (idx : PyStr) :
    nameAllowed specials idx = specials.all (fun c => !(idx.contains c)) := by
  unfold nameAllowed
  rw [nameAllowed_foldl]
  simp

/-- A name containing a disallowed character fails validation. -/
theorem nameAllowed_eq_false (specials : List Char) (idx : PyStr) (c : Char)
    (hc : c ∈ specials) (hi : c ∈ idx) :
    nameAllowed specials idx = false := by
  have hcont : idx.contains c = true := by simpa using hi
  rw [nameAllowed_eq_all, List.all_eq_false]
  exact ⟨c, hc, by simpa using hi⟩

/-! ### The claims -/

/-- C1: for every index name (valid or not), whenever the engine-reported
count of prefixed indices is at least MAX_IDX_LIM,
`create_a_single_index` returns the 406 not-acceptable capacity envelope,
and its engine-call trace is exactly the count call — so the check comes
before name validation, normalization, the existence check and any
create call. -/
theorem C1_create_capacity_check_first (cfg : Config) (es : Engine)
    (idx : PyStr) (l : List PyStr)
    (hcat : es.catIndices (cfg.idxNamePfx ++ ['*']) = .ok l)
    (hlim : cfg.MAX_IDX_LIM ≤ l.length) :
    create_a_single_index cfg es idx =
      (.env ⟨maxLimitMsg cfg.MAX_IDX_LIM, HTTP_406_NOT_ACCEPTABLE⟩,
        [.catIndices (cfg.idxNamePfx ++ ['*'])]) := by
  unfold create_a_single_index no_of_tdp_idx
  rw [hcat]
  simp [ge_iff_le, hlim]

/-- Witness for C1 at a concrete input: limit 1, one reported index, an
invalid candidate name. -/
theorem C1_witness :
    create_a_single_index cfgLim1 esOne ['a', '*'] =
      (.env ⟨maxLimitMsg cfgLim1.MAX_IDX_LIM, HTTP_406_NOT_ACCEPTABLE⟩,
        [.catIndices (cfgLim1.idxNamePfx ++ ['*'])]) :=
  C1_create_capacity_check_first cfgLim1 esOne ['a', '*'] [['a']] rfl
    (by decide)

/-- C7: index-name normalization returns an already-prefixed name
unchanged, and normalizing twice equals normalizing once. -/
theorem C7_normalize_idempotent (pfx s : PyStr) :
    (pfx.isPrefixOf s = true → normalizeIdx pfx s = s) ∧
    normalizeIdx pfx (normalizeIdx pfx s) = normalizeIdx pfx s := by
  constructor
  · intro h
    unfold normalizeIdx
    rw [if_pos h]
  · unfold normalizeIdx
    cases h : pfx.isPrefixOf s with
    | true => simp [h]
    | false =>
      have hp : pfx.isPrefixOf (pfx ++ s) = true := by
        rw [List.isPrefixOf_iff_prefix]
        exact List.prefix_append _ _
      simp [h, hp]

/-- Witness for C7 at concrete inputs. -/
theorem C7_witness :
    (normalizeIdx ['t'] ['t', 'a'] = ['t', 'a']) ∧
      normalizeIdx ['t'] (normalizeIdx ['t'] ['a']) = normalizeIdx ['t'] ['a'] :=
  ⟨(C7_normalize_idempotent ['t'] ['t', 'a']).1 (by decide),
    (C7_normalize_idempotent ['t'] ['a']).2⟩

/-- C9: the substring/wildcard text search equals the keyword search run
on the input wrapped with a leading and a trailing '*' — same outcome
and same engine-call trace, for every configuration, engine and input. -/
theorem C9_text_search_is_wildcarded_keyword_search (cfg : Config)
    (es : Engine) (idx text : PyStr) :
    search_all_occurances_of_text_in_index cfg es idx text =
      search_all_occurances_of_keyword_in_index cfg es idx
        (['*'] ++ text ++ ['*']) := rfl

/-- C4: for every valid index name whose normalized form the engine does
not have, delete returns the 400 envelope, single insert returns the 400
envelope, and each of the seven searches returns the 404 index-missing
envelope — and in every case the engine-call trace is exactly the
existence check, so no delete, index or search call is issued. -/
theorem C4_missing_index_short_circuits (cfg : Config) (es : Engine)
    (idx docId key val fld dateField tStart tEnd keyword text : PyStr)
    (doc : Doc)
    (hv : nameAllowed cfg.SPECIAL_CHARS idx = true)
    (hmiss : es.existsIdx (normalizeIdx cfg.idxNamePfx idx) = false) :
    delete_a_single_index cfg es idx =
      (.env ⟨deleteMissingMsg (normalizeIdx cfg.idxNamePfx idx),
          HTTP_400_BAD_REQUEST⟩,
        [.existsCheck (normalizeIdx cfg.idxNamePfx idx)]) ∧
    insert_a_single_doc cfg es idx docId doc =
      (.env ⟨insertMissingMsg (normalizeIdx cfg.idxNamePfx idx),
          HTTP_400_BAD_REQUEST⟩,
        [.existsCheck (normalizeIdx cfg.idxNamePfx idx)]) ∧
    search_record_from_index_by_given_id cfg es idx docId =
      (.env ⟨missingIdxMsg (normalizeIdx cfg.idxNamePfx idx),
          HTTP_404_NOT_FOUND⟩,
        [.existsCheck (normalizeIdx cfg.idxNamePfx idx)]) ∧
    search_records_from_index_by_given_key_and_value cfg es idx key val =
      (.env ⟨missingIdxMsg (normalizeIdx cfg.idxNamePfx idx),
          HTTP_404_NOT_FOUND⟩,
        [.existsCheck (normalizeIdx cfg.idxNamePfx idx)]) ∧
    search_field_from_index_by_given_key_and_value cfg es idx fld key val =
      (.env ⟨missingIdxMsg (normalizeIdx cfg.idxNamePfx idx),
          HTTP_404_NOT_FOUND⟩,
        [.existsCheck (normalizeIdx cfg.idxNamePfx idx)]) ∧
    search_records_from_index_by_time_range cfg es idx dateField tStart tEnd =
      (.env ⟨missingIdxMsg (normalizeIdx cfg.idxNamePfx idx),
          HTTP_404_NOT_FOUND⟩,
        [.existsCheck (normalizeIdx cfg.idxNamePfx idx)]) ∧
    search_field_from_index_by_time_range cfg es idx dateField fld tStart tEnd =
      (.env ⟨missingIdxMsg (normalizeIdx cfg.idxNamePfx idx),
          HTTP_404_NOT_FOUND⟩,
        [.existsCheck (normalizeIdx cfg.idxNamePfx idx)]) ∧
    search_all_occurances_of_keyword_in_index cfg es idx keyword =
      (.env ⟨missingIdxMsg (normalizeIdx cfg.idxNamePfx idx),
          HTTP_404_NOT_FOUND⟩,
        [.existsCheck (normalizeIdx cfg.idxNamePfx idx)]) ∧
    search_all_occurances_of_text_in_index cfg es idx text =
      (.env ⟨missingIdxMsg (normalizeIdx cfg.idxNamePfx idx),
          HTTP_404_NOT_FOUND⟩,
        [.existsCheck (normalizeIdx cfg.idxNamePfx idx)]) := by
  refine ⟨?_, ?_, ?_, ?_, ?_, ?_, ?_, ?_, ?_⟩ <;>
    simp [delete_a_single_index, insert_a_single_doc,
      search_record_from_index_by_given_id,
      search_records_from_index_by_given_key_and_value,
      search_field_from_index_by_given_key_and_value,
      search_records_from_index_by_time_range,
      search_field_from_index_by_time_range,
      search_all_occurances_of_keyword_in_index,
      search_all_occurances_of_text_in_index, hv, hmiss]

/-- Witness for C4 at a concrete input: the empty engine has no index. -/
theorem C4_witness :
    delete_a_single_index cfg1 esEmpty ['a'] =
      (.env ⟨deleteMissingMsg (normalizeIdx cfg1.idxNamePfx ['a']),
          HTTP_400_BAD_REQUEST⟩,
        [.existsCheck (normalizeIdx cfg1.idxNamePfx ['a'])]) ∧
    insert_a_single_doc cfg1 esEmpty ['a'] ['1'] [] =
      (.env ⟨insertMissingMsg (normalizeIdx cfg1.idxNamePfx ['a']),
          HTTP_400_BAD_REQUEST⟩,
        [.existsCheck (normalizeIdx cfg1.idxNamePfx ['a'])]) ∧
    search_record_from_index_by_given_id cfg1 esEmpty ['a'] ['1'] =
      (.env ⟨missingIdxMsg (normalizeIdx cfg1.idxNamePfx ['a']),
          HTTP_404_NOT_FOUND⟩,
        [.existsCheck (normalizeIdx cfg1.idxNamePfx ['a'])]) ∧
    search_records_from_index_by_given_key_and_value cfg1 esEmpty ['a'] ['k'] ['v'] =
      (.env ⟨missingIdxMsg (normalizeIdx cfg1.idxNamePfx ['a']),
          HTTP_404_NOT_FOUND⟩,
        [.existsCheck (normalizeIdx cfg1.idxNamePfx ['a'])]) ∧
    search_field_from_index_by_given_key_and_value cfg1 esEmpty ['a'] ['f'] ['k'] ['v'] =
      (.env ⟨missingIdxMsg (normalizeIdx cfg1.idxNamePfx ['a']),
          HTTP_404_NOT_FOUND⟩,
        [.existsCheck (normalizeIdx cfg1.idxNamePfx ['a'])]) ∧
    search_records_from_index_by_time_range cfg1 esEmpty ['a'] ['d'] ['0'] ['9'] =
      (.env ⟨missingIdxMsg (normalizeIdx cfg1.idxNamePfx ['a']),
          HTTP_404_NOT_FOUND⟩,
        [.existsCheck (normalizeIdx cfg1.idxNamePfx ['a'])]) ∧
    search_field_from_index_by_time_range cfg1 esEmpty ['a'] ['d'] ['f'] ['0'] ['9'] =
      (.env ⟨missingIdxMsg (normalizeIdx cfg1.idxNamePfx ['a']),
          HTTP_404_NOT_FOUND⟩,
        [.existsCheck (normalizeIdx cfg1.idxNamePfx ['a'])]) ∧
    search_all_occurances_of_keyword_in_index cfg1 esEmpty ['a'] ['w'] =
      (.env ⟨missingIdxMsg (normalizeIdx cfg1.idxNamePfx ['a']),
          HTTP_404_NOT_FOUND⟩,
        [.existsCheck (normalizeIdx cfg1.idxNamePfx ['a'])]) ∧
    search_all_occurances_of_text_in_index cfg1 esEmpty ['a'] ['w'] =
      (.env ⟨missingIdxMsg (normalizeIdx cfg1.idxNamePfx ['a']),
          HTTP_404_NOT_FOUND⟩,
        [.existsCheck (normalizeIdx cfg1.idxNamePfx ['a'])]) :=
  C4_missing_index_short_circuits cfg1 esEmpty
    ['a'] ['1'] ['k'] ['v'] ['f'] ['d'] ['0'] ['9'] ['w'] ['w'] []
    (by decide) rfl

/-- C5: on an existing index, when the engine raises ConnectionTimeout,
every one of the seven search operations returns the 408 request-timeout
envelope, whose status differs from the 404 used both by the not-found
envelopes and by the index-missing envelope. -/
theorem C5_search_timeout_is_distinct_408 (cfg : Config) (es : Engine)
    (idx docId key val fld dateField tStart tEnd keyword text : PyStr)
    (hv : nameAllowed cfg.SPECIAL_CHARS idx = true)
    (hex : es.existsIdx (normalizeIdx cfg.idxNamePfx idx) = true)
    (hto : ∀ r, es.search r = .exc .connTimeout) :
    (search_record_from_index_by_given_id cfg es idx docId).1 =
      .env ⟨timedOutMsg, HTTP_408_REQUEST_TIMEOUT⟩ ∧
    (search_records_from_index_by_given_key_and_value cfg es idx key val).1 =
      .env ⟨timedOutMsg, HTTP_408_REQUEST_TIMEOUT⟩ ∧
    (search_field_from_index_by_given_key_and_value cfg es idx fld key val).1 =
      .env ⟨timedOutMsg, HTTP_408_REQUEST_TIMEOUT⟩ ∧
    (search_records_from_index_by_time_range cfg es idx dateField tStart tEnd).1 =
      .env ⟨timedOutMsg, HTTP_408_REQUEST_TIMEOUT⟩ ∧
    (search_field_from_index_by_time_range cfg es idx dateField fld tStart tEnd).1 =
      .env ⟨timedOutMsg, HTTP_408_REQUEST_TIMEOUT⟩ ∧
    (search_all_occurances_of_keyword_in_index cfg es idx keyword).1 =
      .env ⟨timedOutMsg, HTTP_408_REQUEST_TIMEOUT⟩ ∧
    (search_all_occurances_of_text_in_index cfg es idx text).1 =
      .env ⟨timedOutMsg, HTTP_408_REQUEST_TIMEOUT⟩ ∧
    HTTP_408_REQUEST_TIMEOUT ≠ HTTP_404_NOT_FOUND := by
  refine ⟨?_, ?_, ?_, ?_, ?_, ?_, ?_, by decide⟩ <;>
    simp [search_record_from_index_by_given_id,
      search_records_from_index_by_given_key_and_value,
      search_field_from_index_by_given_key_and_value,
      search_records_from_index_by_time_range,
      search_field_from_index_by_time_range,
      search_all_occurances_of_keyword_in_index,
      search_all_occurances_of_text_in_index, hv, hex, hto]

/-- Witness for C5 at a concrete input: `esTO` times out on every search. -/
theorem C5_witness :
    (search_record_from_index_by_given_id cfg1 esTO ['a'] ['1']).1 =
      .env ⟨timedOutMsg, HTTP_408_REQUEST_TIMEOUT⟩ ∧
    (search_records_from_index_by_given_key_and_value cfg1 esTO ['a'] ['k'] ['v']).1 =
      .env ⟨timedOutMsg, HTTP_408_REQUEST_TIMEOUT⟩ ∧
    (search_field_from_index_by_given_key_and_value cfg1 esTO ['a'] ['f'] ['k'] ['v']).1 =
      .env ⟨timedOutMsg, HTTP_408_REQUEST_TIMEOUT⟩ ∧
    (search_records_from_index_by_time_range cfg1 esTO ['a'] ['d'] ['0'] ['9']).1 =
      .env ⟨timedOutMsg, HTTP_408_REQUEST_TIMEOUT⟩ ∧
    (search_field_from_index_by_time_range cfg1 esTO ['a'] ['d'] ['f'] ['0'] ['9']).1 =
      .env ⟨timedOutMsg, HTTP_408_REQUEST_TIMEOUT⟩ ∧
    (search_all_occurances_of_keyword_in_index cfg1 esTO ['a'] ['w']).1 =
      .env ⟨timedOutMsg, HTTP_408_REQUEST_TIMEOUT⟩ ∧
    (search_all_occurances_of_text_in_index cfg1 esTO ['a'] ['w']).1 =
      .env ⟨timedOutMsg, HTTP_408_REQUEST_TIMEOUT⟩ ∧
    HTTP_408_REQUEST_TIMEOUT ≠ HTTP_404_NOT_FOUND :=
  C5_search_timeout_is_distinct_408 cfg1 esTO
    ['a'] ['1'] ['k'] ['v'] ['f'] ['d'] ['0'] ['9'] ['w'] ['w']
    (by decide) rfl (fun _ => rfl)

/-- C2 counterexample: at a concrete input the search-by-id operation
issues its engine query with the fixed request timeout but with no
`size` argument at all, so it does not pass the RECORDS page size the
claim requires of every search operation. -/
theorem C2_counterexample :
    (search_record_from_index_by_given_id cfg1 esHit ['a'] ['1']).2 =
      [.existsCheck ['t', 'd', 'p', '_', 'a'],
        .search ⟨['t', 'd', 'p', '_', 'a'], .matchKV idKey ['1'],
          none, cfg1.REQUEST_TIMEOUT, true⟩] ∧
    (none : Option Nat) ≠ some cfg1.RECORDS := by decide

/-- C2 (amended): every search operation passes the fixed request
timeout REQUEST_TIMEOUT to the engine query it issues, and every search
except the search by id also passes the page size RECORDS; the search by
id passes no maximum result count. -/
theorem C2_amended_search_sizes_and_timeouts (cfg : Config) (es : Engine)
    (idx docId key val fld dateField tStart tEnd keyword text : PyStr)
    (hv : nameAllowed cfg.SPECIAL_CHARS idx = true)
    (hex : es.existsIdx (normalizeIdx cfg.idxNamePfx idx) = true) :
    (search_record_from_index_by_given_id cfg es idx docId).2 =
      [.existsCheck (normalizeIdx cfg.idxNamePfx idx),
        .search ⟨normalizeIdx cfg.idxNamePfx idx, .matchKV idKey docId,
          none, cfg.REQUEST_TIMEOUT, true⟩] ∧
    (search_records_from_index_by_given_key_and_value cfg es idx key val).2 =
      [.existsCheck (normalizeIdx cfg.idxNamePfx idx),
        .search ⟨normalizeIdx cfg.idxNamePfx idx, .matchKV key val,
          some cfg.RECORDS, cfg.REQUEST_TIMEOUT, false⟩] ∧
    (search_field_from_index_by_given_key_and_value cfg es idx fld key val).2 =
      [.existsCheck (normalizeIdx cfg.idxNamePfx idx),
        .search ⟨normalizeIdx cfg.idxNamePfx idx, .matchKV key val,
          some cfg.RECORDS, cfg.REQUEST_TIMEOUT, false⟩] ∧
    (search_records_from_index_by_time_range cfg es idx dateField tStart tEnd).2 =
      [.existsCheck (normalizeIdx cfg.idxNamePfx idx),
        .search ⟨normalizeIdx cfg.idxNamePfx idx,
          .range dateField tStart tEnd,
          some cfg.RECORDS, cfg.REQUEST_TIMEOUT, false⟩] ∧
    (search_field_from_index_by_time_range cfg es idx dateField fld tStart tEnd).2 =
      [.existsCheck (normalizeIdx cfg.idxNamePfx idx),
        .search ⟨normalizeIdx cfg.idxNamePfx idx,
          .range dateField tStart tEnd,
          some cfg.RECORDS, cfg.REQUEST_TIMEOUT, false⟩] ∧
    (search_all_occurances_of_keyword_in_index cfg es idx keyword).2 =
      [.existsCheck (normalizeIdx cfg.idxNamePfx idx),
        .search ⟨normalizeIdx cfg.idxNamePfx idx, .queryString keyword,
          some cfg.RECORDS, cfg.REQUEST_TIMEOUT, false⟩] ∧
    (search_all_occurances_of_text_in_index cfg es idx text).2 =
      [.existsCheck (normalizeIdx cfg.idxNamePfx idx),
        .search ⟨normalizeIdx cfg.idxNamePfx idx,
          .queryString (['*'] ++ text ++ ['*']),
          some cfg.RECORDS, cfg.REQUEST_TIMEOUT, false⟩] := by
  refine ⟨?_, ?_, ?_, ?_, ?_, ?_, ?_⟩ <;>
    (simp [search_record_from_index_by_given_id,
      search_records_from_index_by_given_key_and_value,
      search_field_from_index_by_given_key_and_value,
      search_records_from_index_by_time_range,
      search_field_from_index_by_time_range,
      search_all_occurances_of_keyword_in_index,
      search_all_occurances_of_text_in_index, hv, hex]) <;>
    (split <;> simp)

/-- Witness for the amended C2 at a concrete input. -/
theorem C2_amended_witness :
    (search_record_from_index_by_given_id cfg1 esHit ['a'] ['1']).2 =
      [.existsCheck (normalizeIdx cfg1.idxNamePfx ['a']),
        .search ⟨normalizeIdx cfg1.idxNamePfx ['a'], .matchKV idKey ['1'],
          none, cfg1.REQUEST_TIMEOUT, true⟩] ∧
    (search_records_from_index_by_given_key_and_value cfg1 esHit ['a'] ['k'] ['v']).2 =
      [.existsCheck (normalizeIdx cfg1.idxNamePfx ['a']),
        .search ⟨normalizeIdx cfg1.idxNamePfx ['a'], .matchKV ['k'] ['v'],
          some cfg1.RECORDS, cfg1.REQUEST_TIMEOUT, false⟩] ∧
    (search_field_from_index_by_given_key_and_value cfg1 esHit ['a'] ['f'] ['k'] ['v']).2 =
      [.existsCheck (normalizeIdx cfg1.idxNamePfx ['a']),
        .search ⟨normalizeIdx cfg1.idxNamePfx ['a'], .matchKV ['k'] ['v'],
          some cfg1.RECORDS, cfg1.REQUEST_TIMEOUT, false⟩] ∧
    (search_records_from_index_by_time_range cfg1 esHit ['a'] ['d'] ['0'] ['9']).2 =
      [.existsCheck (normalizeIdx cfg1.idxNamePfx ['a']),
        .search ⟨normalizeIdx cfg1.idxNamePfx ['a'], .range ['d'] ['0'] ['9'],
          some cfg1.RECORDS, cfg1.REQUEST_TIMEOUT, false⟩] ∧
    (search_field_from_index_by_time_range cfg1 esHit ['a'] ['d'] ['f'] ['0'] ['9']).2 =
      [.existsCheck (normalizeIdx cfg1.idxNamePfx ['a']),
        .search ⟨normalizeIdx cfg1.idxNamePfx ['a'], .range ['d'] ['0'] ['9'],
          some cfg1.RECORDS, cfg1.REQUEST_TIMEOUT, false⟩] ∧
    (search_all_occurances_of_keyword_in_index cfg1 esHit ['a'] ['w']).2 =
      [.existsCheck (normalizeIdx cfg1.idxNamePfx ['a']),
        .search ⟨normalizeIdx cfg1.idxNamePfx ['a'], .queryString ['w'],
          some cfg1.RECORDS, cfg1.REQUEST_TIMEOUT, false⟩] ∧
    (search_all_occurances_of_text_in_index cfg1 esHit ['a'] ['w']).2 =
      [.existsCheck (normalizeIdx cfg1.idxNamePfx ['a']),
        .search ⟨normalizeIdx cfg1.idxNamePfx ['a'],
          .queryString (['*'] ++ ['w'] ++ ['*']),
          some cfg1.RECORDS, cfg1.REQUEST_TIMEOUT, false⟩] :=
  C2_amended_search_sizes_and_timeouts cfg1 esHit
    ['a'] ['1'] ['k'] ['v'] ['f'] ['d'] ['0'] ['9'] ['w'] ['w']
    (by decide) rfl

/-- C6 counterexample: the name "a*" contains the disallowed character
'*', yet when the engine-reported index count has reached the limit,
`create_a_single_index` returns the 406 capacity envelope, not the 405
validation envelope the claim requires of every operation. -/
theorem C6_counterexample :
    ('*' ∈ cfgLim1.SPECIAL_CHARS ∧ '*' ∈ (['a', '*'] : PyStr)) ∧
    (create_a_single_index cfgLim1 esOne ['a', '*']).1 =
      .env ⟨maxLimitMsg cfgLim1.MAX_IDX_LIM, HTTP_406_NOT_ACCEPTABLE⟩ ∧
    HTTP_406_NOT_ACCEPTABLE ≠ HTTP_405_METHOD_NOT_ALLOWED := by decide

/-- C6 (amended): for every index name containing a disallowed character,
delete, single insert, bulk insert and the seven searches reject it with
the 405 validation envelope, make no engine call (empty trace) and raise
nothing; create does the same — with only the count call in its trace —
provided its capacity check passes first (the count call succeeds and
reports fewer than MAX_IDX_LIM indices), since the capacity check
precedes validation. -/
theorem C6_amended_validation_rejects_with_405 (cfg : Config) (es : Engine)
    (idx docId key val fld dateField tStart tEnd keyword text fname : PyStr)
    (doc : Doc) (c : Char)
    (hc : c ∈ cfg.SPECIAL_CHARS) (hi : c ∈ idx) :
    delete_a_single_index cfg es idx =
      (.env ⟨invalidNameDeleteMsg idx, 405⟩, []) ∧
    insert_a_single_doc cfg es idx docId doc =
      (.env ⟨invalidNameInsertMsg idx, 405⟩, []) ∧
    insert_multiple_docs_from_csv cfg es idx fname =
      (.env ⟨invalidNameInsertMsg idx, 405⟩, []) ∧
    search_record_from_index_by_given_id cfg es idx docId =
      (.env ⟨invalidNameSearchMsg idx, HTTP_405_METHOD_NOT_ALLOWED⟩, []) ∧
    search_records_from_index_by_given_key_and_value cfg es idx key val =
      (.env ⟨invalidNameSearchMsg idx, HTTP_405_METHOD_NOT_ALLOWED⟩, []) ∧
    search_field_from_index_by_given_key_and_value cfg es idx fld key val =
      (.env ⟨invalidNameSearchMsg idx, HTTP_405_METHOD_NOT_ALLOWED⟩, []) ∧
    search_records_from_index_by_time_range cfg es idx dateField tStart tEnd =
      (.env ⟨invalidNameSearchMsg idx, HTTP_405_METHOD_NOT_ALLOWED⟩, []) ∧
    search_field_from_index_by_time_range cfg es idx dateField fld tStart tEnd =
      (.env ⟨invalidNameSearchMsg idx, HTTP_405_METHOD_NOT_ALLOWED⟩, []) ∧
    search_all_occurances_of_keyword_in_index cfg es idx keyword =
      (.env ⟨invalidNameSearchMsg idx, HTTP_405_METHOD_NOT_ALLOWED⟩, []) ∧
    search_all_occurances_of_text_in_index cfg es idx text =
      (.env ⟨invalidNameSearchMsg idx, HTTP_405_METHOD_NOT_ALLOWED⟩, []) ∧
    (∀ l, es.catIndices (cfg.idxNamePfx ++ ['*']) = .ok l →
      l.length < cfg.MAX_IDX_LIM →
      create_a_single_index cfg es idx =
        (.env ⟨invalidNameCreateMsg idx, HTTP_405_METHOD_NOT_ALLOWED⟩,
          [.catIndices (cfg.idxNamePfx ++ ['*'])])) := by
  have hbad : nameAllowed cfg.SPECIAL_CHARS idx = false :=
    nameAllowed_eq_false cfg.SPECIAL_CHARS idx c hc hi
  refine ⟨?_, ?_, ?_, ?_, ?_, ?_, ?_, ?_, ?_, ?_, ?_⟩
  case _ => simp [delete_a_single_index, hbad]
  case _ => simp [insert_a_single_doc, hbad]
  case _ => simp [insert_multiple_docs_from_csv, hbad]
  case _ => simp [search_record_from_index_by_given_id, hbad]
  case _ => simp [search_records_from_index_by_given_key_and_value, hbad]
  case _ => simp [search_field_from_index_by_given_key_and_value, hbad]
  case _ => simp [search_records_from_index_by_time_range, hbad]
  case _ => simp [search_field_from_index_by_time_range, hbad]
  case _ => simp [search_all_occurances_of_keyword_in_index, hbad]
  case _ => simp [search_all_occurances_of_text_in_index, hbad]
  case _ =>
    intro l hcat hlt
    unfold create_a_single_index no_of_tdp_idx
    rw [hcat]
    simp [hbad, not_le.mpr hlt]

/-- Witness for the amended C6 at a concrete input (name "a*", empty
engine with zero reported indices). -/
theorem C6_amended_witness :
    delete_a_single_index cfg1 esEmpty ['a', '*'] =
      (.env ⟨invalidNameDeleteMsg ['a', '*'], 405⟩, []) ∧
    insert_a_single_doc cfg1 esEmpty ['a', '*'] ['1'] [] =
      (.env ⟨invalidNameInsertMsg ['a', '*'], 405⟩, []) ∧
    insert_multiple_docs_from_csv cfg1 esEmpty ['a', '*'] ['f'] =
      (.env ⟨invalidNameInsertMsg ['a', '*'], 405⟩, []) ∧
    search_record_from_index_by_given_id cfg1 esEmpty ['a', '*'] ['1'] =
      (.env ⟨invalidNameSearchMsg ['a', '*'], HTTP_405_METHOD_NOT_ALLOWED⟩, []) ∧
    search_records_from_index_by_given_key_and_value cfg1 esEmpty ['a', '*'] ['k'] ['v'] =
      (.env ⟨invalidNameSearchMsg ['a', '*'], HTTP_405_METHOD_NOT_ALLOWED⟩, []) ∧
    search_field_from_index_by_given_key_and_value cfg1 esEmpty ['a', '*'] ['f'] ['k'] ['v'] =
      (.env ⟨invalidNameSearchMsg ['a', '*'], HTTP_405_METHOD_NOT_ALLOWED⟩, []) ∧
    search_records_from_index_by_time_range cfg1 esEmpty ['a', '*'] ['d'] ['0'] ['9'] =
      (.env ⟨invalidNameSearchMsg ['a', '*'], HTTP_405_METHOD_NOT_ALLOWED⟩, []) ∧
    search_field_from_index_by_time_range cfg1 esEmpty ['a', '*'] ['d'] ['f'] ['0'] ['9'] =
      (.env ⟨invalidNameSearchMsg ['a', '*'], HTTP_405_METHOD_NOT_ALLOWED⟩, []) ∧
    search_all_occurances_of_keyword_in_index cfg1 esEmpty ['a', '*'] ['w'] =
      (.env ⟨invalidNameSearchMsg ['a', '*'], HTTP_405_METHOD_NOT_ALLOWED⟩, []) ∧
    search_all_occurances_of_text_in_index cfg1 esEmpty ['a', '*'] ['w'] =
      (.env ⟨invalidNameSearchMsg ['a', '*'], HTTP_405_METHOD_NOT_ALLOWED⟩, []) ∧
    create_a_single_index cfg1 esEmpty ['a', '*'] =
      (.env ⟨invalidNameCreateMsg ['a', '*'], HTTP_405_METHOD_NOT_ALLOWED⟩,
        [.catIndices (cfg1.idxNamePfx ++ ['*'])]) := by
  obtain ⟨h1, h2, h3, h4, h5, h6, h7, h8, h9, h10, hcr⟩ :=
    C6_amended_validation_rejects_with_405 cfg1 esEmpty
      ['a', '*'] ['1'] ['k'] ['v'] ['f'] ['d'] ['0'] ['9'] ['w'] ['w'] ['f'] []
      '*' (by decide) (by decide)
  exact ⟨h1, h2, h3, h4, h5, h6, h7, h8, h9, h10, hcr [] rfl (by decide)⟩

/-- C3 counterexample: when the engine's create call raises
ConnectionTimeout, `create_a_single_index` reports the generic 404
failure envelope, not a distinct request-timeout outcome — its broad
except swallows the timeout, contradicting the claim that every
engine-calling operation reports timeouts distinctly. -/
theorem C3_counterexample :
    (create_a_single_index cfg1 esCreateTO ['a']).1 =
      .env ⟨createFailMsg (normalizeIdx cfg1.idxNamePfx ['a']),
        HTTP_404_NOT_FOUND⟩ ∧
    HTTP_404_NOT_FOUND ≠ HTTP_408_REQUEST_TIMEOUT := by decide

/-- C3 (amended): only the seven search operations catch
ConnectionTimeout specifically and report the distinct 408
request-timeout envelope; create, delete, single insert and bulk insert
catch exceptions broadly, so an engine connection timeout there is
reported through the generic 404 failure envelope. -/
theorem C3_amended_only_searches_catch_timeout (cfg : Config)
    (es esc : Engine)
    (idx docId key val fld dateField tStart tEnd keyword text fname : PyStr)
    (doc : Doc) (lc : List PyStr)
    (hv : nameAllowed cfg.SPECIAL_CHARS idx = true)
    (hex : es.existsIdx (normalizeIdx cfg.idxNamePfx idx) = true)
    (hto : ∀ r, es.search r = .exc .connTimeout)
    (hdel : es.deleteIdx (normalizeIdx cfg.idxNamePfx idx) = .exc .connTimeout)
    (hins : es.indexDoc (normalizeIdx cfg.idxNamePfx idx) docId doc =
      .exc .connTimeout)
    (hopen : es.fileOpen fname = .ok ())
    (hbulk : es.bulkLoad (normalizeIdx cfg.idxNamePfx idx) fname =
      .exc .connTimeout)
    (hcatc : esc.catIndices (cfg.idxNamePfx ++ ['*']) = .ok lc)
    (hlimc : lc.length < cfg.MAX_IDX_LIM)
    (hexc : esc.existsIdx (normalizeIdx cfg.idxNamePfx idx) = false)
    (hcrc : esc.createIdx (normalizeIdx cfg.idxNamePfx idx) =
      .exc .connTimeout) :
    (search_record_from_index_by_given_id cfg es idx docId).1 =
      .env ⟨timedOutMsg, HTTP_408_REQUEST_TIMEOUT⟩ ∧
    (search_records_from_index_by_given_key_and_value cfg es idx key val).1 =
      .env ⟨timedOutMsg, HTTP_408_REQUEST_TIMEOUT⟩ ∧
    (search_field_from_index_by_given_key_and_value cfg es idx fld key val).1 =
      .env ⟨timedOutMsg, HTTP_408_REQUEST_TIMEOUT⟩ ∧
    (search_records_from_index_by_time_range cfg es idx dateField tStart tEnd).1 =
      .env ⟨timedOutMsg, HTTP_408_REQUEST_TIMEOUT⟩ ∧
    (search_field_from_index_by_time_range cfg es idx dateField fld tStart tEnd).1 =
      .env ⟨timedOutMsg, HTTP_408_REQUEST_TIMEOUT⟩ ∧
    (search_all_occurances_of_keyword_in_index cfg es idx keyword).1 =
      .env ⟨timedOutMsg, HTTP_408_REQUEST_TIMEOUT⟩ ∧
    (search_all_occurances_of_text_in_index cfg es idx text).1 =
      .env ⟨timedOutMsg, HTTP_408_REQUEST_TIMEOUT⟩ ∧
    (delete_a_single_index cfg es idx).1 =
      .env ⟨deleteFailMsg (normalizeIdx cfg.idxNamePfx idx), 404⟩ ∧
    (insert_a_single_doc cfg es idx docId doc).1 =
      .env ⟨insertFailMsg (normalizeIdx cfg.idxNamePfx idx), 404⟩ ∧
    (insert_multiple_docs_from_csv cfg es idx fname).1 =
      .env ⟨bulkFailMsg (normalizeIdx cfg.idxNamePfx idx), 404⟩ ∧
    (create_a_single_index cfg esc idx).1 =
      .env ⟨createFailMsg (normalizeIdx cfg.idxNamePfx idx),
        HTTP_404_NOT_FOUND⟩ ∧
    HTTP_404_NOT_FOUND ≠ HTTP_408_REQUEST_TIMEOUT := by
  refine ⟨?_, ?_, ?_, ?_, ?_, ?_, ?_, ?_, ?_, ?_, ?_, by decide⟩
  case _ => simp [search_record_from_index_by_given_id, hv, hex, hto]
  case _ =>
    simp [search_records_from_index_by_given_key_and_value, hv, hex, hto]
  case _ =>
    simp [search_field_from_index_by_given_key_and_value, hv, hex, hto]
  case _ => simp [search_records_from_index_by_time_range, hv, hex, hto]
  case _ => simp [search_field_from_index_by_time_range, hv, hex, hto]
  case _ => simp [search_all_occurances_of_keyword_in_index, hv, hex, hto]
  case _ => simp [search_all_occurances_of_text_in_index, hv, hex, hto]
  case _ => simp [delete_a_single_index, hv, hex, hdel]
  case _ => simp [insert_a_single_doc, hv, hex, hins]
  case _ => simp [insert_multiple_docs_from_csv, hv, hex, hopen, hbulk]
  case _ =>
    unfold create_a_single_index no_of_tdp_idx
    rw [hcatc]
    simp [hv, hexc, hcrc, not_le.mpr hlimc]

/-- Witness for the amended C3 at concrete inputs: `esTO` times out on
search, delete, index and bulk calls; `esCreateTO` times out on create. -/
theorem C3_amended_witness :
    (search_record_from_index_by_given_id cfg1 esTO ['a'] ['1']).1 =
      .env ⟨timedOutMsg, HTTP_408_REQUEST_TIMEOUT⟩ ∧
    (search_records_from_index_by_given_key_and_value cfg1 esTO ['a'] ['k'] ['v']).1 =
      .env ⟨timedOutMsg, HTTP_408_REQUEST_TIMEOUT⟩ ∧
    (search_field_from_index_by_given_key_and_value cfg1 esTO ['a'] ['f'] ['k'] ['v']).1 =
      .env ⟨timedOutMsg, HTTP_408_REQUEST_TIMEOUT⟩ ∧
    (search_records_from_index_by_time_range cfg1 esTO ['a'] ['d'] ['0'] ['9']).1 =
      .env ⟨timedOutMsg, HTTP_408_REQUEST_TIMEOUT⟩ ∧
    (search_field_from_index_by_time_range cfg1 esTO ['a'] ['d'] ['f'] ['0'] ['9']).1 =
      .env ⟨timedOutMsg, HTTP_408_REQUEST_TIMEOUT⟩ ∧
    (search_all_occurances_of_keyword_in_index cfg1 esTO ['a'] ['w']).1 =
      .env ⟨timedOutMsg, HTTP_408_REQUEST_TIMEOUT⟩ ∧
    (search_all_occurances_of_text_in_index cfg1 esTO ['a'] ['w']).1 =
      .env ⟨timedOutMsg, HTTP_408_REQUEST_TIMEOUT⟩ ∧
    (delete_a_single_index cfg1 esTO ['a']).1 =
      .env ⟨deleteFailMsg (normalizeIdx cfg1.idxNamePfx ['a']), 404⟩ ∧
    (insert_a_single_doc cfg1 esTO ['a'] ['1'] []).1 =
      .env ⟨insertFailMsg (normalizeIdx cfg1.idxNamePfx ['a']), 404⟩ ∧
    (insert_multiple_docs_from_csv cfg1 esTO ['a'] ['f']).1 =
      .env ⟨bulkFailMsg (normalizeIdx cfg1.idxNamePfx ['a']), 404⟩ ∧
    (create_a_single_index cfg1 esCreateTO ['a']).1 =
      .env ⟨createFailMsg (normalizeIdx cfg1.idxNamePfx ['a']),
        HTTP_404_NOT_FOUND⟩ ∧
    HTTP_404_NOT_FOUND ≠ HTTP_408_REQUEST_TIMEOUT :=
  C3_amended_only_searches_catch_timeout cfg1 esTO esCreateTO
    ['a'] ['1'] ['k'] ['v'] ['f'] ['d'] ['0'] ['9'] ['w'] ['w'] ['f'] [] []
    (by decide) rfl (fun _ => rfl) rfl rfl rfl rfl rfl (by decide) rfl rfl

/-- C8: for both field-projection searches, when the engine returns a
nonempty hit list the result is exactly the per-hit `get` of the
requested field — one entry per hit (the lengths agree), and a hit whose
body lacks the field contributes the `none` placeholder at its own
position instead of being omitted or raising. -/
theorem C8_projection_missing_field_gives_placeholder (cfg : Config)
    (es : Engine) (idx fld key val dateField tStart tEnd : PyStr)
    (hits hitsR : List Doc)
    (hv : nameAllowed cfg.SPECIAL_CHARS idx = true)
    (hex : es.existsIdx (normalizeIdx cfg.idxNamePfx idx) = true)
    (hres : es.search ⟨normalizeIdx cfg.idxNamePfx idx, .matchKV key val,
      some cfg.RECORDS, cfg.REQUEST_TIMEOUT, false⟩ = .ok hits)
    (hne : hits ≠ [])
    (hresR : es.search ⟨normalizeIdx cfg.idxNamePfx idx,
      .range dateField tStart tEnd, some cfg.RECORDS, cfg.REQUEST_TIMEOUT,
      false⟩ = .ok hitsR)
    (hneR : hitsR ≠ []) :
    ((search_field_from_index_by_given_key_and_value cfg es idx fld key val).1 =
      .projected (hits.map (fun arr => arr.lookup fld)) ∧
    (hits.map (fun arr => arr.lookup fld)).length = hits.length ∧
    (∀ (i : Nat) (d : Doc), hits[i]? = some d → d.lookup fld = none →
      (hits.map (fun arr => arr.lookup fld))[i]? = some none)) ∧
    ((search_field_from_index_by_time_range cfg es idx dateField fld tStart tEnd).1 =
      .projected (hitsR.map (fun arr => arr.lookup fld)) ∧
    (hitsR.map (fun arr => arr.lookup fld)).length = hitsR.length ∧
    (∀ (i : Nat) (d : Doc), hitsR[i]? = some d → d.lookup fld = none →
      (hitsR.map (fun arr => arr.lookup fld))[i]? = some none)) := by
  refine ⟨⟨?_, List.length_map _ _, ?_⟩, ⟨?_, List.length_map _ _, ?_⟩⟩
  case _ =>
    cases hits with
    | nil => exact absurd rfl hne
    | cons a t =>
      simp [search_field_from_index_by_given_key_and_value, hv, hex, hres]
  case _ =>
    intro i d hd hnone
    rw [List.getElem?_map, hd]
    simp [hnone]
  case _ =>
    cases hitsR with
    | nil => exact absurd rfl hneR
    | cons a t =>
      simp [search_field_from_index_by_time_range, hv, hex, hresR]
  case _ =>
    intro i d hd hnone
    rw [List.getElem?_map, hd]
    simp [hnone]

/-- Witness for C8 at a concrete input: one hit whose body has only the
field "k", projected on the absent field "f". -/
theorem C8_witness :
    (((search_field_from_index_by_given_key_and_value cfg1 esHit
        ['a'] ['f'] ['k'] ['v']).1 =
      .projected ([[(['k'], ['v'])]].map (fun arr => arr.lookup ['f'])) ∧
    ([[(['k'], ['v'])]].map (fun arr => arr.lookup (['f'] : PyStr))).length =
      [[(['k'], ['v'])]].length ∧
    (∀ (i : Nat) (d : Doc), ([[(['k'], ['v'])]] : List Doc)[i]? = some d →
      d.lookup ['f'] = none →
      ([[(['k'], ['v'])]].map (fun arr => arr.lookup (['f'] : PyStr)))[i]? =
        some none)) ∧
    ((search_field_from_index_by_time_range cfg1 esHit
        ['a'] ['d'] ['f'] ['0'] ['9']).1 =
      .projected ([[(['k'], ['v'])]].map (fun arr => arr.lookup ['f'])) ∧
    ([[(['k'], ['v'])]].map (fun arr => arr.lookup (['f'] : PyStr))).length =
      [[(['k'], ['v'])]].length ∧
    (∀ (i : Nat) (d : Doc), ([[(['k'], ['v'])]] : List Doc)[i]? = some d →
      d.lookup ['f'] = none →
      ([[(['k'], ['v'])]].map (fun arr => arr.lookup (['f'] : PyStr)))[i]? =
        some none))) :=
  C8_projection_missing_field_gives_placeholder cfg1 esHit
    ['a'] ['f'] ['k'] ['v'] ['d'] ['0'] ['9']
    [[(['k'], ['v'])]] [[(['k'], ['v'])]]
    (by decide) rfl rfl (by decide) rfl (by decide)

/-- When the count call reports a list, `create_a_single_index` always
returns an envelope (it never lets an exception propagate). -/
theorem create_env_of_cat_ok (cfg : Config) (es : Engine) (idx : PyStr)
    (l : List PyStr)
    (hcat : es.catIndices (cfg.idxNamePfx ++ ['*']) = .ok l) :
    ∃ e, (create_a_single_index cfg es idx).1 = .env e := by
  unfold create_a_single_index no_of_tdp_idx
  rw [hcat]
  by_cases h1 : l.length ≥ cfg.MAX_IDX_LIM
  · exact ⟨⟨maxLimitMsg cfg.MAX_IDX_LIM, HTTP_406_NOT_ACCEPTABLE⟩,
      by simp [h1]⟩
  · by_cases h2 : nameAllowed cfg.SPECIAL_CHARS idx = true
    · by_cases h3 : es.existsIdx (normalizeIdx cfg.idxNamePfx idx) = true
      · exact ⟨⟨alreadyExistsMsg (normalizeIdx cfg.idxNamePfx idx),
          HTTP_208_ALREADY_REPORTED⟩, by simp [h1, h2, h3]⟩
      · cases h4 : es.createIdx (normalizeIdx cfg.idxNamePfx idx) with
        | ok a =>
          exact ⟨⟨createdMsg (normalizeIdx cfg.idxNamePfx idx), HTTP_200_OK⟩,
            by simp [h1, h2, h3, h4]⟩
        | exc k =>
          exact ⟨⟨createFailMsg (normalizeIdx cfg.idxNamePfx idx),
            HTTP_404_NOT_FOUND⟩, by simp [h1, h2, h3, h4]⟩
    · exact ⟨⟨invalidNameCreateMsg idx, HTTP_405_METHOD_NOT_ALLOWED⟩,
        by simp [h1, h2]⟩

/-- C10: when the target index is missing (and the count call used by
create reports a list, so create returns an envelope), the bulk insert
calls `create_a_single_index`, discards its envelope, and proceeds to
open the file and issue the bulk call regardless of whether creation
succeeded — the reported outcome depends only on the bulk call, and the
trace shows the create calls followed by the open and the bulk call. -/
theorem C10_bulk_insert_ignores_create_outcome (cfg : Config) (es : Engine)
    (idx fname : PyStr) (l : List PyStr)
    (hv : nameAllowed cfg.SPECIAL_CHARS idx = true)
    (hmiss : es.existsIdx (normalizeIdx cfg.idxNamePfx idx) = false)
    (hcat : es.catIndices (cfg.idxNamePfx ++ ['*']) = .ok l)
    (hopen : es.fileOpen fname = .ok ()) :
    insert_multiple_docs_from_csv cfg es idx fname =
      ((match es.bulkLoad (normalizeIdx cfg.idxNamePfx idx) fname with
        | .ok _ => .env ⟨bulkOkMsg (normalizeIdx cfg.idxNamePfx idx), 200⟩
        | .exc _ => .env ⟨bulkFailMsg (normalizeIdx cfg.idxNamePfx idx), 404⟩),
      .existsCheck (normalizeIdx cfg.idxNamePfx idx) ::
        ((create_a_single_index cfg es (normalizeIdx cfg.idxNamePfx idx)).2 ++
          [.openFile fname,
            .bulkLoad (normalizeIdx cfg.idxNamePfx idx) fname])) := by
  obtain ⟨e, he⟩ :=
    create_env_of_cat_ok cfg es (normalizeIdx cfg.idxNamePfx idx) l hcat
  rcases hc : create_a_single_index cfg es (normalizeIdx cfg.idxNamePfx idx)
    with ⟨out, ctr⟩
  rw [hc] at he
  simp only at he
  subst he
  cases hb : es.bulkLoad (normalizeIdx cfg.idxNamePfx idx) fname with
  | ok a => simp [insert_multiple_docs_from_csv, hv, hmiss, hc, hopen, hb]
  | exc k => simp [insert_multiple_docs_from_csv, hv, hmiss, hc, hopen, hb]

/-- Witness for C10 at a concrete input: with the index limit set to 0
the inner create fails with the capacity envelope, yet the bulk write is
attempted and reports its own success. -/
theorem C10_witness :
    insert_multiple_docs_from_csv cfgLim0 esEmpty ['a'] ['f'] =
      ((match esEmpty.bulkLoad (normalizeIdx cfgLim0.idxNamePfx ['a']) ['f'] with
        | .ok _ => .env ⟨bulkOkMsg (normalizeIdx cfgLim0.idxNamePfx ['a']), 200⟩
        | .exc _ =>
          .env ⟨bulkFailMsg (normalizeIdx cfgLim0.idxNamePfx ['a']), 404⟩),
      .existsCheck (normalizeIdx cfgLim0.idxNamePfx ['a']) ::
        ((create_a_single_index cfgLim0 esEmpty
            (normalizeIdx cfgLim0.idxNamePfx ['a'])).2 ++
          [.openFile ['f'],
            .bulkLoad (normalizeIdx cfgLim0.idxNamePfx ['a']) ['f']])) :=
  C10_bulk_insert_ignores_create_outcome cfgLim0 esEmpty ['a'] ['f'] []
    (by decide) rfl rfl rfl

end Elk
